import Mathlib

/-!
Verification of the drizzlepac Single-Visit-Mosaic sequencer
(`drizzlepac/hapsequencer.py` and `drizzlepac/hlautils/poller_utils.py`)
against its natural-language specification.

The Python code is shallowly embedded: pure helpers become Lean functions,
file-system state is passed explicitly (files on disk as a `List String`),
in-place FITS header edits are recorded as an explicit event trace, and
`sys.exit(n)` / uncaught exceptions become `Except Nat` results.
Python strings are modelled as Lean `String`s; for the filter-name
resolution rule, where we must reason about case-commuting rewrites,
strings are modelled as lists of character codes (`List Nat`), matching
Python's code-point semantics.
-/

/-! ### Character-code strings (for `determine_filter_name`)

Python's `str.lower` maps the ASCII range `A`-`Z` (codes 65-90) to
`a`-`z`; the filter strings handled by `poller_utils.determine_filter_name`
are ASCII, so kind code-point arithmetic suffices. -/

/-- A Python string as its list of character codes. -/
abbrev PyStr := List Nat

/-- Character codes of a Lean string literal, for stating concrete examples. -/
def strCodes (s : String) : PyStr := s.toList.map Char.toNat

/-- ASCII lower-casing of one code point, as in CPython for the ASCII range. -/
def lowerN (n : Nat) : Nat := if 65 ≤ n ∧ n ≤ 90 then n + 32 else n

/-- `str.lower`. -/
def lowerS (s : PyStr) : PyStr := s.map lowerN

/-- `str.split(';')` (code 59 is `;`). -/
def splitSemi : PyStr → List PyStr
  | [] => [[]]
  | c :: cs =>
      if c = 59 then [] :: splitSemi cs
      else
        match splitSemi cs with
        | [] => [[c]]
        | g :: gs => (c :: g) :: gs

/-- Does `s` start with `pat`? (`str.startswith`). -/
def startsWithS : PyStr → PyStr → Bool
  | _, [] => true
  | [], _ :: _ => false
  | c :: cs, p :: ps => (c == p) && startsWithS cs ps

/-- Python's `pat in s` substring containment. -/
def containsS : PyStr → PyStr → Bool
  | [], pat => startsWithS [] pat
  | c :: cs, pat => startsWithS (c :: cs) pat || containsS cs pat

/-- `'-'.join(parts)` (code 45 is `-`). -/
def joinDash : List PyStr → PyStr
  | [] => []
  | [s] => s
  | s :: t :: rest => s ++ 45 :: joinDash (t :: rest)

/-- Codes of the literal `"clear"`. -/
def clearS : PyStr := [99, 108, 101, 97, 114]

/-- Codes of the literal `"pol"`. -/
def polS : PyStr := [112, 111, 108]

/-- `poller_utils.determine_filter_name`, translated clause by clause:
lower-case the raw string, split on `;`, keep the components not
containing `"clear"`, answer `"clear"` if none survive, otherwise put a
leading polarizer (`pol*`) component last and join with `-`. -/
def determine_filter_name (raw_filter : PyStr) : PyStr :=
  let raw := lowerS raw_filter
  let filter_list := splitSemi raw
  let output_filter_list := filter_list.filter (fun f => !(containsS f clearS))
  match output_filter_list with
  | [] => clearS
  | f :: rest =>
      joinDash (if startsWithS f polS then (f :: rest).reverse else f :: rest)

/-- The filter-name resolution rule as the specification words it:
drop every `;`-component containing `"clear"` case-insensitively, return
the literal `"clear"` when no component survives, reverse the order when
the surviving first component starts with `"pol"`, join survivors with
`-`, and lower-case the output. -/
def resolveSpec (raw_filter : PyStr) : PyStr :=
  let comps := splitSemi raw_filter
  let survivors := comps.filter (fun c => !(containsS (lowerS c) clearS))
  match survivors with
  | [] => clearS
  | c :: rest =>
      lowerS (joinDash (if startsWithS (lowerS c) polS then (c :: rest).reverse
                        else c :: rest))

/-! ### Kernel-computable string helpers

Core's `String.toLower`, `String.toUpper`, `String.endsWith`,
`String.isPrefixOf` and `String.splitOn` are not reducible by the kernel,
so the embedding uses its own character-list implementations of the
Python string primitives. -/

/-- Python `str.lower` on one character (ASCII, as used by this code). -/
def pyLowerChar (c : Char) : Char :=
  if 65 ≤ c.toNat ∧ c.toNat ≤ 90 then Char.ofNat (c.toNat + 32) else c

/-- Python `str.upper` on one character. -/
def pyUpperChar (c : Char) : Char :=
  if 97 ≤ c.toNat ∧ c.toNat ≤ 122 then Char.ofNat (c.toNat - 32) else c

/-- Python `str.lower`. -/
def pyLower (s : String) : String := String.mk (s.toList.map pyLowerChar)

/-- Python `str.upper`. -/
def pyUpper (s : String) : String := String.mk (s.toList.map pyUpperChar)

/-- Does the character list `s` start with `pre`? -/
def listStarts : List Char → List Char → Bool
  | _, [] => true
  | [], _ :: _ => false
  | c :: cs, p :: ps => (c == p) && listStarts cs ps

/-- Python `s.startswith(pre)`. -/
def pyStartsWith (s pre : String) : Bool := listStarts s.toList pre.toList

/-- Python `s.endswith(suf)`. -/
def pyEndsWith (s suf : String) : Bool :=
  listStarts s.toList.reverse suf.toList.reverse

/-- Substring occurrence on character lists. -/
def listContains : List Char → List Char → Bool
  | [], pat => listStarts [] pat
  | c :: cs, pat => listStarts (c :: cs) pat || listContains cs pat

/-- Python `pat in s`. -/
def pyContains (s pat : String) : Bool := listContains s.toList pat.toList

/-- Strip surrounding spaces (`str.strip`, FITS keyword normalization). -/
def pyStrip (s : String) : String :=
  String.mk (((s.toList.dropWhile (fun c => c = ' ')).reverse.dropWhile
    (fun c => c = ' ')).reverse)

/-! ### Obset tree parsing (`poller_utils.parse_obset_tree`)

The tree produced by `build_obset_tree` is
detector -> filter -> list of `(row_info, filename)` pairs.  We embed the
part of `parse_obset_tree` that chooses the drizzle filetype suffix and
builds the per-exposure product info strings.  The loop state carries
`prev_det_indx`, `det_indx` and the current `filetype` exactly as in the
Python code. -/

/-- Loop state of `parse_obset_tree`. -/
structure ParseState where
  prev_det_indx : Nat
  det_indx : Nat
  filetype : String
deriving DecidableEq, Repr

/-- `filename[10:13].lower().endswith("flt")` deciding `"drz"` vs `"drc"`:
Python's slice `[10:13]` is drop 10 / take 3 and truncates silently. -/
def inferFiletype (fname : String) : String :=
  if pyEndsWith (pyLower (String.mk ((fname.toList.drop 10).take 3))) "flt"
  then "drz" else "drc"

/-- One exposure of the inner loop: reset the filetype from the CURRENT
pair's filename (the tuple access `filename[1]`) when a new detector group
begins, then build `prod_info = (row_info + " " + filetype).lower()`. -/
def procExp (st : ParseState) (e : String × String) : ParseState × String :=
  let st1 := if st.det_indx ≠ st.prev_det_indx
             then { prev_det_indx := st.det_indx, det_indx := st.det_indx,
                    filetype := inferFiletype e.2 }
             else st
  (st1, pyLower (e.1 ++ " " ++ st1.filetype))

/-- The exposure loop over one filter's `(row_info, filename)` list. -/
def procExps (st : ParseState) : List (String × String) → ParseState × List String
  | [] => (st, [])
  | e :: rest =>
      let (st1, i) := procExp st e
      let (st2, is) := procExps st1 rest
      (st2, i :: is)

/-- The filter loop of `parse_obset_tree` for one detector. -/
def procFilters (st : ParseState) : List (List (String × String)) →
    ParseState × List (List String)
  | [] => (st, [])
  | fl :: rest =>
      let (st1, is) := procExps st fl
      let (st2, iss) := procFilters st1 rest
      (st2, is :: iss)

/-- The detector loop: `det_indx` is incremented when a new total
detection product starts, before any exposures are visited. -/
def procDets (st : ParseState) : List (List (List (String × String))) →
    List (List (List String))
  | [] => []
  | d :: rest =>
      let st0 := { st with det_indx := st.det_indx + 1 }
      let (st1, iss) := procFilters st0 d
      iss :: procDets st1 rest

/-- `parse_obset_tree`, restricted to the product info strings it emits:
per detector, per filter, per exposure. Initial state has
`prev_det_indx = det_indx = 0` and an empty filetype. -/
def parse_obset_tree (det_tree : List (List (List (String × String)))) :
    List (List (List String)) :=
  procDets { prev_det_indx := 0, det_indx := 0, filetype := "" } det_tree

/-- The filetype a detector group actually receives: inferred from the
FIRST exposure of the group's first filter. -/
def groupFiletype (d : List (List (String × String))) : String :=
  match d with
  | (e :: _) :: _ => inferFiletype e.2
  | _ => ""

/-- Well-formed obset trees (as produced by `build_obset_tree`): every
filter group holds at least one exposure. -/
def wfTree (tree : List (List (List (String × String)))) : Prop :=
  ∀ d ∈ tree, d ≠ [] ∧ ∀ fl ∈ d, fl ≠ []

/-! ### Environment switches (`hapsequencer._get_envvar_switch`) -/

/-- The recognized switch values (`envvar_bool_dict`). -/
def envvar_bool_dict : List (String × Bool) :=
  [("off", false), ("on", true), ("no", false), ("yes", true),
   ("false", false), ("true", true)]

/-- The per-detector catalog switches and their defaults (`envvar_cat_svm`). -/
def envvar_cat_svm : List (String × String) :=
  [("SVM_CATALOG_SBC", "on"), ("SVM_CATALOG_HRC", "on"),
   ("SVM_CATALOG_WFC", "on"), ("SVM_CATALOG_UVIS", "on"),
   ("SVM_CATALOG_IR", "on"), ("SVM_CATALOG_PC", "on")]

/-- The error message raised for an unrecognized value. -/
def invalidSwitchMsg (envvar_name : String) : String :=
  "ERROR: invalid value for " ++ envvar_name ++
    ".  Valid Values: on, off, yes, no, true, false"

/-- `_get_envvar_switch`: the environment is an association list.  A set
value is lower-cased and looked up in `envvar_bool_dict` (unknown values
raise `ValueError`, modelled as `Except.error`); an unset variable takes
the default when one is given (Python truthiness: an empty-string default
counts as absent) and `None` otherwise.  An unknown non-empty default
would raise `KeyError`. -/
def _get_envvar_switch (env : List (String × String)) (envvar_name : String)
    (default : Option String) : Except String (Option Bool) :=
  match env.lookup envvar_name with
  | some v0 =>
      match envvar_bool_dict.lookup (pyLower v0) with
      | some b => Except.ok (some b)
      | none => Except.error (invalidSwitchMsg envvar_name)
  | none =>
      match default with
      | none => Except.ok none
      | some d =>
          if d = "" then Except.ok none
          else
            match envvar_bool_dict.lookup d with
            | some b => Except.ok (some b)
            | none => Except.error ("KeyError: " ++ d)

/-! ### n1 exposure time (`create_catalog_products`, lines 184-233)

Exposure times are modelled as rationals.  An exposure contributes its
filter name and its `exptime`. -/

/-- One step of building `n1_dict` (a Python dict preserving insertion
order, mapping filter -> (exposure count, summed exposure time)). -/
def n1Insert (d : List (String × Nat × ℚ)) (f : String) (t : ℚ) :
    List (String × Nat × ℚ) :=
  match d with
  | [] => [(f, 1, t)]
  | (g, n, tt) :: rest =>
      if g = f then (g, n + 1, tt + t) :: rest
      else (g, n, tt) :: n1Insert rest f t

/-- `n1_dict` built from all exposures of the total product. -/
def buildN1Dict (edps : List (String × ℚ)) : List (String × Nat × ℚ) :=
  edps.foldl (fun d p => n1Insert d p.1 p.2) []

/-- The `(tot_exposure_time, n1_exposure_time)` computation of
`create_catalog_products` given the built `n1_dict`. -/
def computeN1FromDict (d : List (String × Nat × ℚ)) (cr_residual : ℚ) : ℚ × ℚ :=
  let maxN := (d.map (fun x => x.2.1)).foldl Nat.max 0
  if 1 < maxN then
    let tot := ((d.filter (fun x => 1 < x.2.1)).map (fun x => x.2.2)).sum
    let n1 : ℚ := 0
    let n1_factor : ℚ := min 0 1
    (tot, if n1 < tot then n1 * n1_factor else n1)
  else
    let tot := ((d.filter (fun x => x.2.1 = 1)).map (fun x => x.2.2)).sum
    let n1 := ((d.filter (fun x => x.2.1 = 1)).map (fun x => x.2.2)).sum
    let n1_factor := min (cr_residual * ((d.filter (fun x => x.2.1 = 1)).length : ℚ)) 1
    (tot, if n1 < tot then n1 * n1_factor else n1)

/-- The full computation, including the detector gate: for `IR` and `SBC`
both values stay at their initialization of 0. -/
def n1ExposureInfo (detector : String) (edps : List (String × ℚ))
    (cr_residual : ℚ) : ℚ × ℚ :=
  if pyUpper detector = "IR" ∨ pyUpper detector = "SBC" then (0, 0)
  else computeN1FromDict (buildN1Dict edps) cr_residual

/-! ### Catalog pruning (`create_catalog_products`, lines 301-327)

A catalog row is an association of column names to values; a masked entry
is `none`.  `table.filled(-9999.9)` replaces masked entries by the
sentinel, and `np.isclose` is the numpy closeness test
`|a - b| <= atol + rtol * |b|` with `atol = 1e-8`, `rtol = 1e-5`. -/

/-- A catalog row. -/
abbrev CatRow := List (String × Option ℚ)

/-- Column access (all rows of an astropy table carry all columns). -/
def colVal (r : CatRow) (c : String) : Option ℚ := (r.lookup c).getD none

/-- The fill sentinel `-9999.9`. -/
def sentinel : ℚ := -(99999 / 10)

/-- `table.filled(-9999.9)` for one entry. -/
def fillVal (v : Option ℚ) : ℚ := v.getD sentinel

/-- `np.isclose(x, -9999.9)` with numpy's default tolerances. -/
def isCloseSentinel (x : ℚ) : Bool :=
  |x - sentinel| ≤ 1 / 100000000 + (1 / 100000) * |sentinel|

/-- Python's `pat in s` on real strings. -/
def containsStr (s pat : String) : Bool := pyContains s pat

/-- The per-column test of the pruning step: value above the trim
threshold, or close to the fill sentinel. -/
def rowColBad (flag_trim_value : ℚ) (r : CatRow) (c : String) : Bool :=
  let v := fillVal (colVal r c)
  decide (flag_trim_value < v) || isCloseSentinel v

/-- One `flag_bitmasks` entry: the boolean column for one Flags column. -/
def colBitmask (flag_trim_value : ℚ) (rows : List CatRow) (c : String) :
    List Bool :=
  rows.map (fun r => rowColBad flag_trim_value r c)

/-- The pruning step of `create_catalog_products`: build the per-column
bitmasks for every `Flags_*` column, AND-reduce them, take the indices of
the rows whose combined mask is `False`, and keep exactly those rows. -/
def prune_catalog (colnames : List String) (flag_trim_value : ℚ)
    (rows : List CatRow) : List CatRow :=
  let flag_columns := colnames.filter (fun c => containsStr c "Flags_")
  let flag_bitmasks := flag_columns.map (fun c => colBitmask flag_trim_value rows c)
  let flag_mask := (List.range rows.length).map
    (fun i => flag_bitmasks.all (fun m => m.getD i true))
  let good_rows_index := (List.range rows.length).filter
    (fun i => !(flag_mask.getD i true))
  good_rows_index.filterMap (fun i => rows[i]?)

/-- The specification's discardability predicate: across ALL `Flags_*`
columns, every value strictly exceeds the trim threshold or is masked. -/
def rowDiscardable (flag_columns : List String) (flag_trim_value : ℚ)
    (r : CatRow) : Bool :=
  flag_columns.all (fun c =>
    match colVal r c with
    | none => true
    | some v => decide (flag_trim_value < v))

/-! ### WCS reconciliation (`collect_wcs_names`, `update_wcs_in_visit`)

Images are reduced to the data the reconciliation code reads: the
filename, the trailer filename, the keyword-based and headerlet-based WCS
solution names, the `DRIZCORR` primary-header value and whether the SCI
`HDRNAME` keyword is populated.  The file system is the list of files
currently on disk; in-place mutations of files are recorded as an event
trace.  `sys.exit(1)` becomes `Except.error 1`.

Python `set`s carry no specified iteration order; sets of WCS names are
modelled as lists with membership semantics (first-seen order).  The
claims checked here do not depend on which member of a set a pattern
match returns first. -/

/-- One SVM FLT/FLC exposure as seen by the reconciliation code. -/
structure SvmImage where
  full_filename : String
  trl_filename : String
  keywordWcsNames : List String
  headerletWcsNames : List String
  drizcorr : String
  sciHdrname : Bool
deriving DecidableEq, Repr

/-- A total data product, reduced to its two exposure lists. -/
structure TotalProd where
  grism_edp_list : List SvmImage
  edp_list : List SvmImage
deriving DecidableEq, Repr

/-- An in-place file mutation. -/
inductive FileEvent where
  | deletedFile (fname : String)
  | wcsRefreshed (fname : String)
  | hdrnameAdded (fname : String)
  | primaryWcsSet (fname : String) (wcsname : String)
deriving DecidableEq, Repr

/-- `keyword_wcs_names + headerlet_wcs_names` for one image. -/
def allWcsNames (img : SvmImage) : List String :=
  img.keywordWcsNames ++ img.headerletWcsNames

/-- Set intersection (membership semantics, first set's order). -/
def interS (a b : List String) : List String := a.filter (fun x => x ∈ b)

/-- Accumulator of `collect_wcs_names`. -/
structure CollectAcc where
  fs : List String
  existSet : Bool
  wcsSet : List String
  skipList : List String
  events : List FileEvent
deriving DecidableEq, Repr

/-- One image of the `collect_wcs_names` loop.  An image with WCS names
intersects them into the running set; an empty running intersection is
`sys.exit(1)`.  An image with no WCS names is put on the skip list and,
for `'GRISM'`, its file is removed from disk (a missing file's `OSError`
is swallowed). -/
def collectStep (image_type : String) (acc : CollectAcc) (img : SvmImage) :
    Except Nat CollectAcc :=
  let names := allWcsNames img
  if names.isEmpty then
    let acc1 := { acc with skipList := acc.skipList ++ [img.full_filename] }
    if image_type = "GRISM" then
      if img.full_filename ∈ acc1.fs then
        Except.ok { acc1 with fs := acc1.fs.erase img.full_filename,
                              events := acc1.events ++ [FileEvent.deletedFile img.full_filename] }
      else Except.ok acc1
    else Except.ok acc1
  else
    let s := if acc.existSet then interS acc.wcsSet names.dedup else names.dedup
    if s.isEmpty then Except.error 1
    else Except.ok { acc with existSet := true, wcsSet := s }

/-- `collect_wcs_names` over an exposure list. -/
def collect_wcs_names (image_type : String) (fs : List String)
    (edp_list : List SvmImage) : Except Nat CollectAcc :=
  edp_list.foldlM (collectStep image_type)
    { fs := fs, existSet := false, wcsSet := [], skipList := [], events := [] }

/-- The fixed WCS name-pattern priority list (`wcs_preference`). -/
def wcs_preference : List String := ["IDC_?????????-GSC240", "IDC_?????????"]

/-- `fnmatch` for patterns built from literals and `?` (the only
metacharacter appearing in `wcs_preference`). -/
def fnmatchQ : List Char → List Char → Bool
  | [], [] => true
  | '?' :: ps, _ :: cs => fnmatchQ ps cs
  | p :: ps, c :: cs => (p == c) && fnmatchQ ps cs
  | _, _ => false

/-- String-level `fnmatch.fnmatch(s, pat)`. -/
def fnmatchStr (pat s : String) : Bool := fnmatchQ pat.toList s.toList

/-- The priority-pattern selection: first pattern with at least one match
wins, taking its first match (in the set's iteration order). -/
def pickFrom : List String → List String → Option String
  | [], _ => none
  | p :: ps, s =>
      match s.filter (fun w => fnmatchStr p w) with
      | [] => pickFrom ps s
      | w :: _ => some w

/-- The pre-collection pass over the direct images (lines 1064-1077):
refresh the WCS when `DRIZCORR == "OMIT"` and synthesize a SCI `HDRNAME`
when missing.  Both are in-place file modifications. -/
def directPrePass (edp : SvmImage) : List FileEvent :=
  (if edp.drizcorr = "OMIT" then [FileEvent.wcsRefreshed edp.full_filename] else []) ++
  (if edp.sciHdrname then [] else [FileEvent.hdrnameAdded edp.full_filename])

/-- The pre-collection pass over the whole direct list. -/
def directPrePassAll (edp_list : List SvmImage) : List FileEvent :=
  (edp_list.map directPrePass).flatten

/-- The deletion loop of the no-pattern branch: remove each grism file in
order; the first missing file raises `OSError`, aborting the loop. -/
def removeFilesAcc (fs : List String) (ev : List FileEvent) :
    List SvmImage → List String × List FileEvent × Bool
  | [] => (fs, ev, true)
  | g :: rest =>
      if g.full_filename ∈ fs then
        removeFilesAcc (fs.erase g.full_filename)
          (ev ++ [FileEvent.deletedFile g.full_filename]) rest
      else (fs, ev, false)

/-- Result of `update_wcs_in_visit`: the surviving file system, the event
trace, the grism product list for the manifest, and the (possibly
mutated) total product. -/
structure VisitOut where
  fs : List String
  events : List FileEvent
  grismProducts : List String
  tdp : TotalProd
deriving DecidableEq, Repr

/-- `update_wcs_in_visit`, following the source's control flow:
collect grism WCS names (may `sys.exit(1)`); pick the preferred grism
name; with no match, delete every grism file (an `OSError` falls through
to `sys.exit(1)`), empty the grism list and return an empty product list;
otherwise run the direct-image pre-pass, collect direct WCS names, and
either stop on disjoint sets, or intersect, re-select and rewrite the
active WCS of every non-skipped image. -/
def update_wcs_in_visit (fs : List String) (tdp : TotalProd) :
    Except Nat VisitOut := do
  let gacc ← collect_wcs_names "GRISM" fs tdp.grism_edp_list
  match pickFrom wcs_preference gacc.wcsSet with
  | none =>
      let (fs1, ev1, ok1) := removeFilesAcc gacc.fs gacc.events tdp.grism_edp_list
      if ok1 then
        Except.ok { fs := fs1, events := ev1, grismProducts := [],
                    tdp := { tdp with grism_edp_list := [] } }
      else Except.error 1
  | some _grism_wcsname =>
      let ev2 := gacc.events ++ directPrePassAll tdp.edp_list
      let dacc ← collect_wcs_names "DIRECT" gacc.fs tdp.edp_list
      let ev3 := ev2 ++ dacc.events
      if (interS gacc.wcsSet dacc.wcsSet).isEmpty then
        Except.ok { fs := dacc.fs, events := ev3, grismProducts := [], tdp := tdp }
      else
        match pickFrom wcs_preference (interS gacc.wcsSet dacc.wcsSet) with
        | none => Except.ok { fs := dacc.fs, events := ev3, grismProducts := [], tdp := tdp }
        | some final_wcsname =>
            let gs := tdp.grism_edp_list.filter
              (fun g => g.full_filename ∉ gacc.skipList)
            let ds := tdp.edp_list.filter
              (fun d => d.full_filename ∉ dacc.skipList)
            Except.ok
              { fs := dacc.fs,
                events := ev3 ++
                  gs.map (fun g => FileEvent.primaryWcsSet g.full_filename final_wcsname) ++
                  ds.map (fun d => FileEvent.primaryWcsSet d.full_filename final_wcsname),
                grismProducts :=
                  (gs.map (fun g => [g.full_filename, g.trl_filename])).flatten,
                tdp := tdp }

/-- The reconciliation portion of the visit loop in `run_hap_processing`
(lines 644-646): `update_wcs_in_visit` runs for every total product owning
both grism and direct exposures; an uncaught `SystemExit` aborts the
whole loop, so no later total product is processed. -/
def reconcileVisit (fs : List String) :
    List TotalProd → Except Nat (List String × List (List String))
  | [] => Except.ok (fs, [])
  | t :: rest =>
      if ¬ t.grism_edp_list.isEmpty ∧ ¬ t.edp_list.isEmpty then
        match update_wcs_in_visit fs t with
        | Except.error e => Except.error e
        | Except.ok out =>
            match reconcileVisit out.fs rest with
            | Except.error e => Except.error e
            | Except.ok (fs', prods) => Except.ok (fs', out.grismProducts :: prods)
      else reconcileVisit fs rest

/-! ### Active-WCS rewrite (`update_active_wcs`, `archive_alternate_wcs`)

A file's WCS state: the active/primary solution name, the keyed alternate
solutions, the archived headerlet extensions in order (wcsname, hdrname),
the primary-header `HDRNAME<key>` keywords and the `FILENAME` keyword.
The external `stwcs` restore is modelled by its observable effect of
making the named solution the active one (the claim settled here never
takes that branch). -/

/-- The WCS-related state of one FITS file. -/
structure WcsFile where
  activeName : String
  altWcs : List (String × String)
  hdrlets : List (String × String)
  hdrnameKws : List (String × String)
  filenameKw : String
deriving DecidableEq, Repr

/-- `re.match(base + "-[\d]", w)`: `w` begins with `base`, a dash and a
digit. -/
def dupMatch (base w : String) : Bool :=
  pyStartsWith w (base ++ "-") &&
    (match w.toList.drop (base.length + 1) with
     | c :: _ => c.isDigit
     | [] => false)

/-- Reduce a duplicated WCSNAME `<name>-<digit>...` back to the archived
base name (first matching headerlet wins, in extension order). -/
def dedupName (headerlet_wcsnames : List String) (w : String) : String :=
  match headerlet_wcsnames.find? (fun h => dupMatch h w) with
  | some h => h
  | none => w

/-- Python `s[:-n]`. -/
def pyDropLast (s : String) (n : Nat) : String :=
  String.mk (s.toList.take (s.length - n))

/-- The HDRNAME used when archiving the solution with key `wkey`: the
`HDRNAME<key>` primary keyword if present, else synthesized from the
`FILENAME` keyword. -/
def hdrnameFor (f : WcsFile) (wkey wname : String) : String :=
  match f.hdrnameKws.lookup (pyStrip ("HDRNAME" ++ pyUpper wkey)) with
  | some h => h
  | none => pyDropLast f.filenameKw 5 ++ "_" ++ wname ++ "-hlet.fits"

/-- What one solution of the `archive_alternate_wcs` loop appends to the
headerlet list: nothing for the `OPUS` key, nothing when the (deduped)
name already has an archived headerlet, else one new headerlet. -/
def archiveContribution (f : WcsFile) (headerlet_wcsnames : List String)
    (wkey wname : String) : List (String × String) :=
  if pyStartsWith (pyUpper wkey) "O" then []
  else
    let wname1 := dedupName headerlet_wcsnames wname
    if wname1 ∈ headerlet_wcsnames then []
    else [(wname1, hdrnameFor f wkey wname1)]

/-- `archive_alternate_wcs`: loop over all solutions (the primary, key
`" "`, plus every alternate), appending a headerlet for each one not yet
archived.  The membership list is captured before the loop, as in the
source. -/
def archive_alternate_wcs (f : WcsFile) : WcsFile :=
  let headerlet_wcsnames := f.hdrlets.map Prod.fst
  let wcs_key_dict := (" ", f.activeName) :: f.altWcs
  { f with hdrlets := f.hdrlets ++
      (wcs_key_dict.map
        (fun p => archiveContribution f headerlet_wcsnames p.1 p.2)).flatten }

/-- `stwcs.wcsutil.altwcs.getKeyFromName`: the primary solution has key
`" "`; otherwise the key of the matching alternate. -/
def getKeyFromName (f : WcsFile) (wcsname : String) : Option String :=
  if f.activeName = wcsname then some " "
  else (f.altWcs.find? (fun p => p.2 = wcsname)).map Prod.fst

/-- Observable effect of `wcsutil.headerlet.restore_from_headerlet` plus
the NMATCHES/IDCSCALE bookkeeping and a-priori keyword cleanup of
`update_active_wcs`: the named solution becomes the active one. -/
def restoreFromHeaderlet (f : WcsFile) (wcsname : String) : WcsFile :=
  { f with activeName := wcsname }

/-- `update_active_wcs`: read the key of the target solution, archive all
alternate solutions, and restore the target from its headerlet unless it
is already the active solution (key `" "`). -/
def update_active_wcs (f : WcsFile) (wcsname : String) : WcsFile :=
  let key := getKeyFromName f wcsname
  let f1 := archive_alternate_wcs f
  if key ≠ some " " then restoreFromHeaderlet f1 wcsname
  else f1

/-! ### Manifest finalization (`run_hap_processing`, FINALIZE block)

The `finally` block first determines the manifest filename and then
writes the manifest.  The input poller specification is a string
filename (whose first entry's FITS header supplies INSTRUME/ROOTNAME), a
Python list of filenames, or something else entirely. -/

/-- The shape of `input_filename`, with the primary header values the
close-out code would read from it. -/
inductive ManifestInput where
  | strFile (instrume rootname : String)
  | listFiles (instrume rootname : String)
  | otherInput
deriving DecidableEq, Repr

/-- Python `s[a:b]`. -/
def pySlice (s : String) (a b : Nat) : String :=
  String.mk ((s.toList.drop a).take (b - a))

/-- The manifest name synthesized from a primary header:
`instrume_root[1:4]_root[4:6]_manifest.txt`, lower-cased. -/
def synthManifestName (instrume rootname : String) : String :=
  let co_inst := pyLower instrume
  let co_root := pyLower rootname
  co_inst ++ "_" ++ pySlice co_root 1 4 ++ "_" ++ pySlice co_root 4 6 ++
    "_" ++ "manifest.txt"

/-- The manifest-name determination of the FINALIZE block: keep a name
set by the main sequence; otherwise synthesize one from the header, or
fall back to the bare `"manifest.txt"` for inputs that are neither a
string nor a list. -/
def determineManifestName (manifest_name : String) (inp : ManifestInput) :
    String :=
  if manifest_name = "" then
    match inp with
    | ManifestInput.strFile i r => synthManifestName i r
    | ManifestInput.listFiles i r => synthManifestName i r
    | ManifestInput.otherInput => "manifest.txt"
  else manifest_name

/-- The manifest write of the FINALIZE block: `some (name, lines)` when a
file is created (with one product per line if `total_obj_list` is
non-empty), `none` when the write is skipped.  The source skips the write
both for an empty name and for the literal `"manifest.txt"`. -/
def writeManifestFile (manifest_name : String) (inp : ManifestInput)
    (totalObjListNonempty : Bool) (product_list : List String) :
    Option (String × List String) :=
  let name := determineManifestName manifest_name inp
  if name ≠ "" ∧ name ≠ "manifest.txt" then
    some (name, if totalObjListNonempty then product_list else [])
  else none

/-- Decidable side condition for the pruning characterization: every
unmasked value of the given columns is nonnegative (true of the flag
columns, whose values are small nonnegative bit masks). -/
def rowsNonnegOn (cols : List String) (rows : List CatRow) : Bool :=
  rows.all (fun r => cols.all (fun c =>
    match colVal r c with
    | none => true
    | some v => decide (0 ≤ v)))

/-! ## Theorems -/

/-! ### Filter-name resolution -/

theorem lowerN_semi : lowerN 59 = 59 := by decide

theorem lowerN_eq_semi_iff (n : Nat) : lowerN n = 59 ↔ n = 59 := by
  unfold lowerN; split <;> omega

theorem splitSemi_ne_nil (s : PyStr) : splitSemi s ≠ [] := by
  induction s with
  | nil => simp [splitSemi]
  | cons c cs ih =>
      simp only [splitSemi]
      split
      · simp
      · cases h : splitSemi cs with
        | nil => simp
        | cons g gs => simp

theorem splitSemi_lower (s : PyStr) :
    splitSemi (lowerS s) = (splitSemi s).map lowerS := by
  induction s with
  | nil => simp [splitSemi, lowerS]
  | cons c cs ih =>
      by_cases hc : c = 59
      · subst hc
        simp only [lowerS, List.map_cons, lowerN_semi, splitSemi, if_pos rfl]
        simpa [lowerS] using ih
      · have hc' : lowerN c ≠ 59 := fun h => hc ((lowerN_eq_semi_iff c).mp h)
        simp only [lowerS, List.map_cons, splitSemi, if_neg hc', if_neg hc]
        rw [show (List.map lowerN cs) = lowerS cs from rfl, ih]
        cases h : splitSemi cs with
        | nil => exact absurd h (splitSemi_ne_nil cs)
        | cons g gs => simp [lowerS]

theorem lowerN_dash : lowerN 45 = 45 := by decide

theorem lowerS_append (a b : PyStr) : lowerS (a ++ b) = lowerS a ++ lowerS b := by
  simp [lowerS]

theorem joinDash_lower (L : List PyStr) :
    joinDash (L.map lowerS) = lowerS (joinDash L) := by
  induction L with
  | nil => simp [joinDash, lowerS]
  | cons s rest ih =>
      cases rest with
      | nil => simp [joinDash]
      | cons t r =>
          simp only [List.map_cons, joinDash, lowerS_append]
          rw [show lowerS (45 :: joinDash (t :: r)) = 45 :: lowerS (joinDash (t :: r)) by
            simp [lowerS, lowerN_dash]]
          rw [← ih]
          simp [joinDash]

theorem lowerN_idem (n : Nat) : lowerN (lowerN n) = lowerN n := by
  unfold lowerN
  split
  · split <;> omega
  · rfl

theorem lowerS_idem (s : PyStr) : lowerS (lowerS s) = lowerS s := by
  simp [lowerS, List.map_map, Function.comp_def, lowerN_idem]

theorem lowerS_clear : lowerS clearS = clearS := by decide

theorem determine_lower_idem (raw : PyStr) :
    lowerS (determine_filter_name raw) = determine_filter_name raw := by
  have hmem : ∀ x ∈ (splitSemi (lowerS raw)).filter (fun f => !(containsS f clearS)),
      lowerS x = x := by
    intro x hx
    have hx' := List.mem_of_mem_filter hx
    rw [splitSemi_lower] at hx'
    obtain ⟨y, _, rfl⟩ := List.mem_map.mp hx'
    exact lowerS_idem y
  simp only [determine_filter_name]
  cases h : (splitSemi (lowerS raw)).filter (fun f => !(containsS f clearS)) with
  | nil => exact lowerS_clear
  | cons f rest =>
      simp only
      have harg : ∀ L : List PyStr, (∀ x ∈ L, lowerS x = x) →
          lowerS (joinDash L) = joinDash L := by
        intro L hL
        rw [← joinDash_lower]
        congr 1
        simpa using List.map_congr_left hL
      split
      · refine harg _ ?_
        intro x hx
        rw [List.mem_reverse] at hx
        exact hmem x (h ▸ hx)
      · refine harg _ ?_
        intro x hx
        exact hmem x (h ▸ hx)

/-- C6: the filter-name resolution function is pure and deterministic (it
is a Lean function); it agrees, on EVERY input string, with the
specification's rule (drop `clear` components case-insensitively,
fall back to `"clear"`, put a leading polarizer last, join with `-`,
lower-case the output); its output is always lower-case; and the five
concrete examples of the claim hold. -/
theorem determine_filter_name_spec :
    (∀ raw : PyStr, determine_filter_name raw = resolveSpec raw) ∧
    (∀ raw : PyStr, lowerS (determine_filter_name raw) = determine_filter_name raw) ∧
    determine_filter_name (strCodes "F555W") = strCodes "f555w" ∧
    determine_filter_name (strCodes "CLEAR1L;F555W") = strCodes "f555w" ∧
    determine_filter_name (strCodes "CLEAR1L;CLEAR2L") = strCodes "clear" ∧
    determine_filter_name (strCodes "F606W;POL60") = strCodes "f606w-pol60" ∧
    determine_filter_name (strCodes "POL60;F606W") = strCodes "f606w-pol60" := by
  refine ⟨?_, determine_lower_idem, by decide, by decide, by decide, by decide, by decide⟩
  intro raw
  simp only [determine_filter_name, resolveSpec]
  rw [splitSemi_lower, List.filter_map]
  simp only [Function.comp_def]
  cases h : (splitSemi raw).filter (fun c => !(containsS (lowerS c) clearS)) with
  | nil => simp
  | cons c rest =>
      simp only [List.map_cons]
      split
      · rw [← List.map_cons, ← List.map_reverse, joinDash_lower]
      · rw [← List.map_cons, joinDash_lower]

/-! ### Environment switches -/

/-- C10: every catalog switch (all defaulted to `'on'`) yields `True`
when the variable is unset, so catalog generation is enabled by default;
the QA switch, which has no default, yields `None` when unset, so quality
analysis is skipped by default; a set value is lower-cased before lookup
and yields the mapped boolean; a set value outside the recognized six
raises `ValueError`. -/
theorem envvar_switch_defaults :
    (∀ (env : List (String × String)) (sw d : String), (sw, d) ∈ envvar_cat_svm →
       env.lookup sw = none →
       _get_envvar_switch env sw (some d) = Except.ok (some true)) ∧
    (∀ env : List (String × String), env.lookup "SVM_QUALITY_TESTING" = none →
       _get_envvar_switch env "SVM_QUALITY_TESTING" none = Except.ok none) ∧
    (∀ (env : List (String × String)) (name v : String) (d : Option String) (b : Bool),
       env.lookup name = some v → envvar_bool_dict.lookup (pyLower v) = some b →
       _get_envvar_switch env name d = Except.ok (some b)) ∧
    (∀ (env : List (String × String)) (name v : String) (d : Option String),
       env.lookup name = some v → envvar_bool_dict.lookup (pyLower v) = none →
       _get_envvar_switch env name d = Except.error (invalidSwitchMsg name)) := by
  refine ⟨?_, ?_, ?_, ?_⟩
  · intro env sw d hmem hl
    have hd : d = "on" := by
      simp only [envvar_cat_svm, List.mem_cons, List.not_mem_nil, or_false,
        Prod.mk.injEq] at hmem
      rcases hmem with ⟨-, h⟩ | ⟨-, h⟩ | ⟨-, h⟩ | ⟨-, h⟩ | ⟨-, h⟩ | ⟨-, h⟩ <;> exact h
    subst hd
    simp only [_get_envvar_switch, hl]
    rfl
  · intro env hl
    simp [_get_envvar_switch, hl]
  · intro env name v d b hl hb
    simp [_get_envvar_switch, hl, hb]
  · intro env name v d hl hb
    simp [_get_envvar_switch, hl, hb]

/-- C10 witness: concrete instantiations of all four parts. -/
theorem envvar_switch_defaults_witness :
    _get_envvar_switch [] "SVM_CATALOG_IR" (some "on") = Except.ok (some true) ∧
    _get_envvar_switch [] "SVM_QUALITY_TESTING" none = Except.ok none ∧
    _get_envvar_switch [("SVM_CATALOG_IR", "OFF")] "SVM_CATALOG_IR" (some "on") =
      Except.ok (some false) ∧
    _get_envvar_switch [("SVM_QUALITY_TESTING", "maybe")] "SVM_QUALITY_TESTING" none =
      Except.error (invalidSwitchMsg "SVM_QUALITY_TESTING") :=
  ⟨envvar_switch_defaults.1 [] "SVM_CATALOG_IR" "on" (by decide) rfl,
   envvar_switch_defaults.2.1 [] rfl,
   envvar_switch_defaults.2.2.1 _ "SVM_CATALOG_IR" "OFF" (some "on") false (by decide) (by decide),
   envvar_switch_defaults.2.2.2 _ "SVM_QUALITY_TESTING" "maybe" none (by decide) (by decide)⟩

/-! ### n1 exposure time -/

/-- C7: for a total product on a detector other than IR and SBC whose
exposures group into filter A with 2 exposures totaling 200s and filter B
with 1 exposure totaling 50s (in either discovery order), with
`cr_residual = 0.3`, the computed `tot_exposure_time` is 200 (the
single-exposure filter B is excluded) and the `n1_exposure_time` handed to
`verify_crthresh` is 0. -/
theorem n1_exposure_time_profile (det : String) (l : List (String × ℚ)) (a b : String)
    (h1 : pyUpper det ≠ "IR") (h2 : pyUpper det ≠ "SBC")
    (h3 : buildN1Dict l = [(a, 2, 200), (b, 1, 50)] ∨
          buildN1Dict l = [(b, 1, 50), (a, 2, 200)]) :
    n1ExposureInfo det l (3 / 10) = (200, 0) := by
  have hdet : ¬ (pyUpper det = "IR" ∨ pyUpper det = "SBC") := by
    rintro (h | h) <;> [exact h1 h; exact h2 h]
  rcases h3 with h3 | h3 <;>
    simp [n1ExposureInfo, hdet, h3, computeN1FromDict]

/-- C7 witness: a concrete exposure list with the required profile on the
UVIS detector. -/
theorem n1_exposure_time_profile_witness :
    n1ExposureInfo "UVIS" [("f606w", 100), ("f606w", 100), ("f814w", 50)] (3 / 10) =
      (200, 0) :=
  n1_exposure_time_profile "UVIS" _ "f606w" "f814w" (by decide) (by decide)
    (Or.inl (by norm_num [buildN1Dict, n1Insert]; decide))

/-! ### Manifest finalization -/

theorem synthManifestName_ne (i r : String) :
    synthManifestName i r ≠ "" ∧ synthManifestName i r ≠ "manifest.txt" := by
  have h1 : ("_" : String).length = 1 := rfl
  have h12 : ("manifest.txt" : String).length = 12 := rfl
  have h0 : ("" : String).length = 0 := rfl
  constructor <;> intro h <;> have hl := congrArg String.length h <;>
    simp only [synthManifestName, String.length_append, h1, h12, h0] at hl <;> omega

/-- C4 counterexample: when `input_filename` is neither a string nor a
list, the FINALIZE block determines the generic fallback manifest name
`"manifest.txt"` — yet the write is skipped (the source requires
`manifest_name != "manifest.txt"`), even with accumulated products.  The
claim says a determinable name is always written. -/
theorem manifest_fallback_skip_counterexample :
    determineManifestName "" ManifestInput.otherInput = "manifest.txt" ∧
    writeManifestFile "" ManifestInput.otherInput true ["hst_11665_06_wfc3_uvis_b46_drz.fits"] =
      none := by
  constructor <;> rfl

/-- C4 (amended): the manifest is written, listing every accumulated
output filename, whenever the name was derived from the first total
product (parse succeeded, so `total_obj_list` is non-empty) or
synthesized from the first input exposure's primary header (parse failed,
so `total_obj_list` and the accumulated products are empty); the write is
skipped when no name could be determined AND ALSO when only the generic
fallback `"manifest.txt"` applies. -/
theorem manifest_written_when_name_determined
    (manifest_name : String) (inp : ManifestInput) (tne : Bool)
    (products : List String)
    (hrun : (manifest_name ≠ "" ∧ tne = true) ∨
            (manifest_name = "" ∧ tne = false ∧ products = []))
    (hname : manifest_name ≠ "manifest.txt")
    (hdet : manifest_name ≠ "" ∨ inp ≠ ManifestInput.otherInput) :
    writeManifestFile manifest_name inp tne products =
      some (determineManifestName manifest_name inp, products) := by
  rcases hrun with ⟨hm, ht⟩ | ⟨hm, ht, hp⟩
  · subst ht
    simp [writeManifestFile, determineManifestName, hm, hname]
  · subst hm ht hp
    rcases hdet with h | h
    · exact absurd rfl h
    · cases inp with
      | strFile i r =>
          simp [writeManifestFile, determineManifestName,
            (synthManifestName_ne i r).1, (synthManifestName_ne i r).2]
      | listFiles i r =>
          simp [writeManifestFile, determineManifestName,
            (synthManifestName_ne i r).1, (synthManifestName_ne i r).2]
      | otherInput => exact absurd rfl h

/-- C4 witness: a run with a parse-derived name writes all products; a
failed run with a header-synthesized name writes the (empty) product
list. -/
theorem manifest_written_when_name_determined_witness :
    writeManifestFile "wfc3_b46_06_manifest.txt" ManifestInput.otherInput true
      ["hst_f1_drz.fits", "hst_f2_trl.txt"] =
      some ("wfc3_b46_06_manifest.txt", ["hst_f1_drz.fits", "hst_f2_trl.txt"]) ∧
    writeManifestFile "" (ManifestInput.strFile "WFC3" "ib4606c5q") false [] =
      some ("wfc3_b46_06_manifest.txt", []) := by
  refine ⟨?_, ?_⟩
  · exact manifest_written_when_name_determined "wfc3_b46_06_manifest.txt"
      ManifestInput.otherInput true _ (Or.inl ⟨by decide, rfl⟩) (by decide)
      (Or.inl (by decide))
  · exact (manifest_written_when_name_determined "" (ManifestInput.strFile "WFC3" "ib4606c5q")
      false [] (Or.inr ⟨rfl, rfl, rfl⟩) (by decide) (Or.inr (by decide))).trans (by decide)

/-! ### Active-WCS rewrite idempotence -/

theorem flatten_eq_nil_of_all_nil {α : Type} (L : List (List α))
    (h : ∀ l ∈ L, l = []) : L.flatten = [] := by
  induction L with
  | nil => rfl
  | cons x xs ih =>
      rw [List.flatten_cons, h x (List.mem_cons_self x xs),
        ih (fun l hl => h l (List.mem_cons_of_mem x hl))]
      rfl

/-- C9: when the target solution name is already the active/primary WCS
(`getKeyFromName` answers the primary key `" "`), `update_active_wcs`
performs no restore — the file state after the call is exactly the state
left by the archive step; and when additionally every non-OPUS solution
already has a matching archived headerlet (matching by name after
stripping a `<name>-<digit>` duplicate suffix), the archive step is also
a no-op, so the file is completely unchanged. -/
theorem update_active_wcs_idempotent (f : WcsFile) (wcsname : String)
    (hactive : f.activeName = wcsname) :
    update_active_wcs f wcsname = archive_alternate_wcs f ∧
    ((∀ p ∈ (" ", f.activeName) :: f.altWcs,
        pyStartsWith (pyUpper p.1) "O" = false →
        dedupName (f.hdrlets.map Prod.fst) p.2 ∈ f.hdrlets.map Prod.fst) →
      update_active_wcs f wcsname = f) := by
  have hkey : getKeyFromName f wcsname = some " " := by
    simp [getKeyFromName, hactive]
  have hfirst : update_active_wcs f wcsname = archive_alternate_wcs f := by
    simp [update_active_wcs, hkey]
  refine ⟨hfirst, fun harch => ?_⟩
  rw [hfirst]
  have hnil : ((((" ", f.activeName) :: f.altWcs).map
      (fun p => archiveContribution f (f.hdrlets.map Prod.fst) p.1 p.2)).flatten) = [] := by
    apply flatten_eq_nil_of_all_nil
    intro l hl
    obtain ⟨p, hp, rfl⟩ := List.mem_map.mp hl
    by_cases ho : pyStartsWith (pyUpper p.1) "O" = true
    · simp [archiveContribution, ho]
    · have hmem := harch p hp (by simpa using ho)
      simp [archiveContribution, ho, hmem]
  simp only [archive_alternate_wcs, hnil, List.append_nil]

/-- C9 witness: a file whose active solution `IDC_X-GSC240` is the
target, with an alternate `IDC_X` and a duplicate-suffixed alternate
`IDC_X-GSC240-1`, all matched by existing headerlets (the duplicate via
suffix stripping): the call leaves the file untouched. -/
theorem update_active_wcs_idempotent_witness :
    (WcsFile.mk "IDC_X-GSC240" [("A", "IDC_X"), ("B", "IDC_X-GSC240-1")]
        [("IDC_X-GSC240", "h0"), ("IDC_X", "h1")] [] "j8ca01at_flc.fits").activeName =
      "IDC_X-GSC240" ∧
    update_active_wcs
      (WcsFile.mk "IDC_X-GSC240" [("A", "IDC_X"), ("B", "IDC_X-GSC240-1")]
        [("IDC_X-GSC240", "h0"), ("IDC_X", "h1")] [] "j8ca01at_flc.fits")
      "IDC_X-GSC240" =
    WcsFile.mk "IDC_X-GSC240" [("A", "IDC_X"), ("B", "IDC_X-GSC240-1")]
        [("IDC_X-GSC240", "h0"), ("IDC_X", "h1")] [] "j8ca01at_flc.fits" :=
  ⟨rfl,
   (update_active_wcs_idempotent _ "IDC_X-GSC240" rfl).2 (by decide)⟩

/-! ### Catalog pruning -/

theorem all_congr' {α : Type} (l : List α) (f g : α → Bool)
    (h : ∀ x ∈ l, f x = g x) : l.all f = l.all g := by
  induction l with
  | nil => rfl
  | cons x xs ih =>
      simp only [List.all_cons]
      rw [h x (List.mem_cons_self x xs), ih (fun y hy => h y (List.mem_cons_of_mem x hy))]

theorem all_map' {α β : Type} (l : List α) (f : α → β) (p : β → Bool) :
    (l.map f).all p = l.all (fun x => p (f x)) := by
  induction l with
  | nil => rfl
  | cons x xs ih => simp only [List.map_cons, List.all_cons, ih]

theorem getD_map_of_lt {α β : Type} (l : List α) (g : α → β) (i : Nat) (d : β)
    (h : i < l.length) : (l.map g).getD i d = g l[i] := by
  rw [List.getD_eq_getElem?_getD, List.getElem?_map, List.getElem?_eq_getElem h]
  rfl

theorem select_eq_filter {α : Type} (rows : List α) (p : α → Bool) :
    (((List.range rows.length).filter (fun i => !((rows.map p).getD i true))).filterMap
      (fun i => rows[i]?)) = rows.filter (fun r => !(p r)) := by
  induction rows with
  | nil => rfl
  | cons r rs ih =>
      rw [show (r :: rs).length = rs.length + 1 from rfl,
        List.range_succ_eq_map, List.filter_cons]
      by_cases hp : p r = true
      · rw [if_neg (by simp [hp])]
        rw [List.filter_map, List.filterMap_map]
        simp only [Function.comp_def, List.map_cons, List.getD_cons_succ,
          List.getElem?_cons_succ]
        rw [ih, List.filter_cons, if_neg (by simp [hp])]
      · have hp' : p r = false := by simpa using hp
        rw [if_pos (by simp [hp'])]
        rw [List.filterMap_cons]
        rw [List.filter_map, List.filterMap_map]
        simp only [Function.comp_def, List.map_cons, List.getD_cons_succ,
          List.getElem?_cons_succ, List.getElem?_cons_zero]
        rw [ih, List.filter_cons, if_pos (by simp [hp'])]

theorem isClose_sentinel_self : isCloseSentinel sentinel = true := by
  simp only [isCloseSentinel, sentinel, sub_self, abs_zero, decide_eq_true_eq]
  positivity

theorem isClose_false_of_nonneg (v : ℚ) (h : 0 ≤ v) : isCloseSentinel v = false := by
  simp only [isCloseSentinel, sentinel, decide_eq_false_iff_not, not_le]
  have habs : |v - -(99999 / 10)| = v + 99999 / 10 := by
    rw [sub_neg_eq_add, abs_of_nonneg (by linarith)]
  rw [habs]
  have habs2 : |(-(99999 / 10) : ℚ)| = 99999 / 10 := by
    rw [abs_neg, abs_of_nonneg (by norm_num)]
  rw [habs2]
  linarith

theorem rowColBad_eq_spec (trim : ℚ) (r : CatRow) (c : String)
    (h : ∀ v : ℚ, colVal r c = some v → 0 ≤ v) :
    rowColBad trim r c =
      (match colVal r c with
       | none => true
       | some v => decide (trim < v)) := by
  cases hc : colVal r c with
  | none =>
      simp only [rowColBad, hc, fillVal, Option.getD_none, isClose_sentinel_self,
        Bool.or_true]
  | some v =>
      have hv := h v hc
      simp only [rowColBad, hc, fillVal, Option.getD_some,
        isClose_false_of_nonneg v hv, Bool.or_false]

/-- C8: with all flag values nonnegative (they are bit masks), a row
survives the pruning step of `create_catalog_products` exactly when some
`Flags_*` column holds an unmasked value not exceeding the trim
threshold — i.e. a row is REMOVED iff across ALL per-filter `Flags_*`
columns every value strictly exceeds the threshold or is masked, and the
surviving rows keep their order. -/
theorem prune_catalog_flag_characterization (colnames : List String) (trim : ℚ)
    (rows : List CatRow)
    (hnn : rowsNonnegOn (colnames.filter (fun c => containsStr c "Flags_")) rows = true) :
    prune_catalog colnames trim rows =
      rows.filter (fun r =>
        !(rowDiscardable (colnames.filter (fun c => containsStr c "Flags_")) trim r)) := by
  set flagCols := colnames.filter (fun c => containsStr c "Flags_") with hfc
  have hnn' : ∀ r ∈ rows, ∀ c ∈ flagCols, ∀ v : ℚ, colVal r c = some v → 0 ≤ v := by
    intro r hr c hc v hv
    have h1 := (List.all_eq_true.mp hnn) r hr
    have h2 := (List.all_eq_true.mp h1) c hc
    rw [hv] at h2
    exact of_decide_eq_true h2
  have hbig : ∀ r ∈ rows, (flagCols.all (fun c => rowColBad trim r c)) =
      rowDiscardable flagCols trim r := by
    intro r hr
    apply all_congr'
    intro c hc
    exact rowColBad_eq_spec trim r c (hnn' r hr c hc)
  simp only [prune_catalog, ← hfc]
  have hstep1 : ((List.range rows.length).filter
      (fun i => !(((List.range rows.length).map
        (fun i => (flagCols.map (fun c => colBitmask trim rows c)).all
          (fun m => m.getD i true))).getD i true))) =
      ((List.range rows.length).filter
        (fun i => !((rows.map (fun r => rowDiscardable flagCols trim r)).getD i true))) := by
    apply List.filter_congr
    intro i hi
    have hi' : i < rows.length := List.mem_range.mp hi
    have hi'' : i < (List.range rows.length).length := by simpa using hi'
    rw [getD_map_of_lt _ _ _ _ hi'', List.getElem_range,
      getD_map_of_lt _ _ _ _ hi']
    congr 1
    have hall : (flagCols.map (fun c => colBitmask trim rows c)).all
        (fun m => m.getD i true) = flagCols.all (fun c => rowColBad trim rows[i] c) := by
      rw [all_map']
      apply all_congr'
      intro c _
      show (colBitmask trim rows c).getD i true = rowColBad trim rows[i] c
      rw [colBitmask, getD_map_of_lt _ _ _ _ hi']
    rw [hall, hbig rows[i] (List.getElem_mem hi')]
  rw [hstep1, select_eq_filter]

/-- C8 witness: with trim threshold 5, the row with `Flags_F606W = 6`
(above trim) and `Flags_F814W` masked is removed, while the row with
`Flags_F606W = 2` (below trim) and `Flags_F814W` masked is retained. -/
theorem prune_catalog_flag_characterization_witness :
    rowsNonnegOn ((["X", "Flags_F606W", "Flags_F814W"]).filter
        (fun c => containsStr c "Flags_"))
      ([[("Flags_F606W", some 6), ("Flags_F814W", none)],
        [("Flags_F606W", some 2), ("Flags_F814W", none)]] : List CatRow) = true ∧
    prune_catalog ["X", "Flags_F606W", "Flags_F814W"] 5
      ([[("Flags_F606W", some 6), ("Flags_F814W", none)],
        [("Flags_F606W", some 2), ("Flags_F814W", none)]] : List CatRow) =
      ([[("Flags_F606W", some 2), ("Flags_F814W", none)]] : List CatRow) := by
  refine ⟨by decide, ?_⟩
  rw [prune_catalog_flag_characterization _ _ _ (by decide)]
  decide

/-! ### Obset tree parsing: the filetype inference -/

theorem procExps_steady (l : List (String × String)) (st : ParseState)
    (h : st.prev_det_indx = st.det_indx) :
    procExps st l = (st, l.map (fun e => pyLower (e.1 ++ " " ++ st.filetype))) := by
  induction l with
  | nil => simp [procExps]
  | cons e rest ih =>
      have hne : ¬ (st.det_indx ≠ st.prev_det_indx) := by omega
      simp only [procExps, procExp, if_neg hne, ih, List.map_cons]

theorem procExps_boundary (e : String × String) (rest : List (String × String))
    (st : ParseState) (h : st.det_indx ≠ st.prev_det_indx) :
    procExps st (e :: rest) =
      ({ prev_det_indx := st.det_indx, det_indx := st.det_indx,
         filetype := inferFiletype e.2 },
       (e :: rest).map (fun x => pyLower (x.1 ++ " " ++ inferFiletype e.2))) := by
  simp only [procExps, procExp, if_pos h]
  rw [procExps_steady rest _ rfl]
  rfl

theorem procFilters_steady (fls : List (List (String × String))) (st : ParseState)
    (h : st.prev_det_indx = st.det_indx) :
    procFilters st fls =
      (st, fls.map (fun fl => fl.map (fun e => pyLower (e.1 ++ " " ++ st.filetype)))) := by
  induction fls with
  | nil => simp [procFilters]
  | cons fl rest ih =>
      simp only [procFilters, procExps_steady fl st h, ih, List.map_cons]

theorem procFilters_boundary (e : String × String) (es : List (String × String))
    (fls : List (List (String × String))) (st : ParseState)
    (h : st.det_indx ≠ st.prev_det_indx) :
    procFilters st ((e :: es) :: fls) =
      ({ prev_det_indx := st.det_indx, det_indx := st.det_indx,
         filetype := inferFiletype e.2 },
       ((e :: es) :: fls).map
         (fun fl => fl.map (fun x => pyLower (x.1 ++ " " ++ inferFiletype e.2)))) := by
  simp only [procFilters, procExps_boundary e es st h]
  rw [procFilters_steady fls _ rfl]
  rfl

theorem procDets_filetype (tree : List (List (List (String × String)))) :
    ∀ st : ParseState, st.prev_det_indx = st.det_indx → wfTree tree →
    procDets st tree =
      tree.map (fun d => d.map (fun fl =>
        fl.map (fun e => pyLower (e.1 ++ " " ++ groupFiletype d)))) := by
  induction tree with
  | nil => intro st _ _; rfl
  | cons d rest ih =>
      intro st h hwf
      obtain ⟨hd, hfl⟩ := hwf d (List.mem_cons_self d rest)
      cases d with
      | nil => exact absurd rfl hd
      | cons fl0 fls =>
          cases fl0 with
          | nil => exact absurd rfl (hfl [] (List.mem_cons_self [] fls))
          | cons e es =>
              simp only [procDets]
              have hb : ({ st with det_indx := st.det_indx + 1 } : ParseState).det_indx ≠
                  ({ st with det_indx := st.det_indx + 1 } : ParseState).prev_det_indx := by
                simp; omega
              rw [procFilters_boundary e es fls _ hb]
              rw [ih _ rfl (fun d' hd' => hwf d' (List.mem_cons_of_mem _ hd'))]
              rfl

/-- C5 counterexample: a detector group whose FIRST exposure is an `flc`
file and whose SECOND exposure is an `flt` file receives filetype
`"drc"` — taken from the first exposure's filename (the code's
`filename[1]` indexes the `(row_info, filename)` tuple, not the exposure
list) — where the claim's "substring of the second exposure's filename"
would give `"drz"`. -/
theorem parse_obset_tree_filetype_counterexample :
    parse_obset_tree [[[("11665 06 WFC3 UVIS IB4606C5Q F555W", "ib4606c5q_flc.fits"),
                        ("11665 06 WFC3 UVIS IB4606C6Q F555W", "ib4606c6q_flt.fits")]]] =
      [[["11665 06 wfc3 uvis ib4606c5q f555w drc",
         "11665 06 wfc3 uvis ib4606c6q f555w drc"]]] ∧
    inferFiletype "ib4606c6q_flt.fits" = "drz" ∧
    "drc" ≠ "drz" := by
  refine ⟨by decide, by decide, by decide⟩

/-- C5 (amended): for every well-formed obset tree, the drizzle filetype
of a detector group is inferred exactly once, when the group begins, from
the fixed-position substring `[10:13]` of the FIRST exposure's filename
(`"drz"` if it ends in `flt`, else `"drc"`), and that filetype is applied
to every product info string of the group. -/
theorem parse_obset_tree_filetype_from_first_exposure
    (tree : List (List (List (String × String)))) (hwf : wfTree tree) :
    parse_obset_tree tree =
      tree.map (fun d => d.map (fun fl =>
        fl.map (fun e => pyLower (e.1 ++ " " ++ groupFiletype d)))) :=
  procDets_filetype tree _ rfl hwf

/-- C5 witness: a two-detector tree; each group's info strings all carry
the filetype inferred from that group's first exposure. -/
theorem parse_obset_tree_filetype_from_first_exposure_witness :
    wfTree [[[("11665 06 WFC3 UVIS IB4606C5Q F555W", "ib4606c5q_flc.fits")]],
            [[("11665 06 WFC3 IR IB4606CLQ F110W", "ib4606clq_flt.fits")]]] ∧
    parse_obset_tree [[[("11665 06 WFC3 UVIS IB4606C5Q F555W", "ib4606c5q_flc.fits")]],
            [[("11665 06 WFC3 IR IB4606CLQ F110W", "ib4606clq_flt.fits")]]] =
      [[["11665 06 wfc3 uvis ib4606c5q f555w drc"]],
       [["11665 06 wfc3 ir ib4606clq f110w drz"]]] := by
  refine ⟨by unfold wfTree; decide, ?_⟩
  rw [parse_obset_tree_filetype_from_first_exposure _ (by unfold wfTree; decide)]
  decide

/-! ### WCS reconciliation: the visit loop -/

theorem except_bind_ok {e a b : Type} (x : a) (f : a → Except e b) :
    (Except.ok x >>= f) = f x := rfl

theorem except_bind_error {e a b : Type} (err : e) (f : a → Except e b) :
    ((Except.error err : Except e a) >>= f) = Except.error err := rfl

theorem collectStep_nonempty (ty : String) (acc : CollectAcc) (img : SvmImage)
    (h : (allWcsNames img).isEmpty = false) :
    collectStep ty acc img = Except.error 1 ∨
    collectStep ty acc img = Except.ok
      { acc with
        existSet := true
        wcsSet := if acc.existSet then interS acc.wcsSet (allWcsNames img).dedup
                  else (allWcsNames img).dedup } := by
  simp only [collectStep, h, Bool.false_eq_true, if_false]
  split <;> split <;> first
    | exact Or.inl rfl
    | exact Or.inr rfl

theorem collect_ok_fields_aux (ty : String) (l : List SvmImage) :
    ∀ (acc out : CollectAcc), (∀ i ∈ l, (allWcsNames i).isEmpty = false) →
    l.foldlM (collectStep ty) acc = Except.ok out →
    out.fs = acc.fs ∧ out.skipList = acc.skipList ∧ out.events = acc.events := by
  induction l with
  | nil =>
      intro acc out _ hf
      rw [List.foldlM_nil] at hf
      cases hf
      exact ⟨rfl, rfl, rfl⟩
  | cons img rest ih =>
      intro acc out hn hf
      rw [List.foldlM_cons] at hf
      rcases collectStep_nonempty ty acc img (hn img (List.mem_cons_self img rest)) with
        he | hok
      · rw [he, except_bind_error] at hf
        cases hf
      · rw [hok, except_bind_ok] at hf
        obtain ⟨h1, h2, h3⟩ := ih _ out (fun i hi => hn i (List.mem_cons_of_mem img hi)) hf
        exact ⟨h1, h2, h3⟩

theorem collect_ok_fields (ty : String) (fs : List String) (l : List SvmImage)
    (out : CollectAcc) (hn : ∀ i ∈ l, (allWcsNames i).isEmpty = false)
    (hf : collect_wcs_names ty fs l = Except.ok out) :
    out.fs = fs ∧ out.skipList = [] ∧ out.events = [] :=
  collect_ok_fields_aux ty l _ out hn hf

theorem pickFrom_eq_none (pats s : List String)
    (h : ∀ p ∈ pats, ∀ w ∈ s, fnmatchStr p w = false) : pickFrom pats s = none := by
  induction pats with
  | nil => rfl
  | cons p ps ih =>
      have hflt : s.filter (fun w => fnmatchStr p w) = [] :=
        List.filter_eq_nil_iff.mpr
          (fun w hw => by simp [h p (List.mem_cons_self p ps) w hw])
      simp only [pickFrom, hflt]
      exact ih (fun q hq w hw => h q (List.mem_cons_of_mem p hq) w hw)

theorem mem_foldl_erase (l : List SvmImage) :
    ∀ (fs : List String) (x : String),
      x ∈ l.foldl (fun s g => s.erase g.full_filename) fs → x ∈ fs := by
  induction l with
  | nil => intro fs x h; exact h
  | cons g rest ih =>
      intro fs x h
      rw [List.foldl_cons] at h
      exact List.mem_of_mem_erase (ih _ x h)

theorem foldl_erase_not_mem (l : List SvmImage) :
    ∀ fs : List String, fs.Nodup →
      ∀ g ∈ l, g.full_filename ∉ l.foldl (fun s g => s.erase g.full_filename) fs := by
  induction l with
  | nil => intro fs _ g hg; exact absurd hg (List.not_mem_nil g)
  | cons g0 rest ih =>
      intro fs hnd g hg
      rw [List.foldl_cons]
      rcases List.mem_cons.mp hg with rfl | hg'
      · intro hmem
        have hin := mem_foldl_erase rest _ _ hmem
        exact ((hnd.mem_erase_iff).mp hin).1 rfl
      · exact ih _ (hnd.erase _) g hg'

theorem removeFilesAcc_success (l : List SvmImage) :
    ∀ (fs : List String) (ev : List FileEvent),
    fs.Nodup → (l.map (fun g => g.full_filename)).Nodup →
    (∀ g ∈ l, g.full_filename ∈ fs) →
    removeFilesAcc fs ev l =
      (l.foldl (fun s g => s.erase g.full_filename) fs,
       ev ++ l.map (fun g => FileEvent.deletedFile g.full_filename), true) := by
  induction l with
  | nil => intro fs ev _ _ _; simp [removeFilesAcc]
  | cons g rest ih =>
      intro fs ev hfs hnd hmem
      rw [List.map_cons] at hnd
      obtain ⟨hghd, hndrest⟩ := List.nodup_cons.mp hnd
      rw [removeFilesAcc, if_pos (hmem g (List.mem_cons_self g rest))]
      rw [ih (fs.erase g.full_filename) (ev ++ [FileEvent.deletedFile g.full_filename])
        (hfs.erase _) hndrest ?memrest]
      case memrest =>
        intro g' hg'
        have hne : g'.full_filename ≠ g.full_filename := by
          intro he
          exact hghd (he ▸ List.mem_map_of_mem (fun x => x.full_filename) hg')
        exact (List.mem_erase_of_ne hne).mpr (hmem g' (List.mem_cons_of_mem g hg'))
      simp

theorem directPrePassAll_nil (l : List SvmImage)
    (h : ∀ d ∈ l, d.drizcorr ≠ "OMIT" ∧ d.sciHdrname = true) :
    directPrePassAll l = [] := by
  apply flatten_eq_nil_of_all_nil
  intro x hx
  obtain ⟨d, hd, rfl⟩ := List.mem_map.mp hx
  obtain ⟨h1, h2⟩ := h d hd
  simp [directPrePass, h1, h2]

/-- C1 (amended): the moment the running intersection of WCS-solution
names (keyword plus headerlet names, accumulated image by image in
`collect_wcs_names`) becomes empty, `collect_wcs_names` terminates with
`sys.exit(1)` regardless of the remaining images; and the `SystemExit`
propagates through `update_wcs_in_visit` and aborts the reconciliation
loop for the WHOLE visit, so no later group is processed. -/
theorem collect_wcs_names_empty_intersection_exits :
    (∀ (ty : String) (acc : CollectAcc) (img : SvmImage) (rest : List SvmImage),
       (allWcsNames img).isEmpty = false → acc.existSet = true →
       (interS acc.wcsSet (allWcsNames img).dedup).isEmpty = true →
       (img :: rest).foldlM (collectStep ty) acc = Except.error 1) ∧
    (∀ (fs : List String) (t : TotalProd) (rest : List TotalProd),
       t.grism_edp_list.isEmpty = false → t.edp_list.isEmpty = false →
       collect_wcs_names "GRISM" fs t.grism_edp_list = Except.error 1 →
       reconcileVisit fs (t :: rest) = Except.error 1) := by
  constructor
  · intro ty acc img rest hn hex hint
    rw [List.foldlM_cons]
    have hstep : collectStep ty acc img = Except.error 1 := by
      simp [collectStep, hn, hex, hint]
    rw [hstep, except_bind_error]
  · intro fs t rest hg hd hcol
    have hupdate : update_wcs_in_visit fs t = Except.error 1 := by
      simp only [update_wcs_in_visit, hcol, except_bind_error]
    simp only [reconcileVisit]
    rw [if_pos ⟨by simp [hg], by simp [hd]⟩, hupdate]

/-- C1 counterexample: a visit with two reconciliation groups in which
the first group's two grism images carry disjoint solution-name sets.
The visit loop yields `SystemExit(1)`: the second (healthy) group is
never reconciled, contradicting "aborted for that group only, and
processing of the rest of the visit continues (the process does not
terminate)". -/
theorem collect_wcs_names_abort_counterexample :
    reconcileVisit ["g1_flt.fits", "g2_flt.fits", "d1_flt.fits", "g3_flt.fits", "d3_flt.fits"]
      [{ grism_edp_list :=
           [{ full_filename := "g1_flt.fits", trl_filename := "g1_trl.txt",
              keywordWcsNames := ["IDC_AAAAAAAAA-GSC240"], headerletWcsNames := [],
              drizcorr := "PERFORM", sciHdrname := true },
            { full_filename := "g2_flt.fits", trl_filename := "g2_trl.txt",
              keywordWcsNames := ["IDC_BBBBBBBBB-GSC240"], headerletWcsNames := [],
              drizcorr := "PERFORM", sciHdrname := true }],
         edp_list :=
           [{ full_filename := "d1_flt.fits", trl_filename := "d1_trl.txt",
              keywordWcsNames := ["IDC_AAAAAAAAA-GSC240"], headerletWcsNames := [],
              drizcorr := "PERFORM", sciHdrname := true }] },
       { grism_edp_list :=
           [{ full_filename := "g3_flt.fits", trl_filename := "g3_trl.txt",
              keywordWcsNames := ["IDC_CCCCCCCCC-GSC240"], headerletWcsNames := [],
              drizcorr := "PERFORM", sciHdrname := true }],
         edp_list :=
           [{ full_filename := "d3_flt.fits", trl_filename := "d3_trl.txt",
              keywordWcsNames := ["IDC_CCCCCCCCC-GSC240"], headerletWcsNames := [],
              drizcorr := "PERFORM", sciHdrname := true }] }] = Except.error 1 := by
  rfl

/-- C1 witness: both parts of the amended theorem at concrete inputs. -/
theorem collect_wcs_names_empty_intersection_exits_witness :
    ([{ full_filename := "g2_flt.fits", trl_filename := "g2_trl.txt",
        keywordWcsNames := ["IDC_BBBBBBBBB-GSC240"], headerletWcsNames := [],
        drizcorr := "PERFORM", sciHdrname := true }] :
      List SvmImage).foldlM (collectStep "GRISM")
      { fs := ["g2_flt.fits"], existSet := true, wcsSet := ["IDC_AAAAAAAAA-GSC240"],
        skipList := [], events := [] } = Except.error 1 ∧
    reconcileVisit ["g1_flt.fits", "g2_flt.fits", "d1_flt.fits"]
      [{ grism_edp_list :=
           [{ full_filename := "g1_flt.fits", trl_filename := "g1_trl.txt",
              keywordWcsNames := ["IDC_AAAAAAAAA-GSC240"], headerletWcsNames := [],
              drizcorr := "PERFORM", sciHdrname := true },
            { full_filename := "g2_flt.fits", trl_filename := "g2_trl.txt",
              keywordWcsNames := ["IDC_BBBBBBBBB-GSC240"], headerletWcsNames := [],
              drizcorr := "PERFORM", sciHdrname := true }],
         edp_list :=
           [{ full_filename := "d1_flt.fits", trl_filename := "d1_trl.txt",
              keywordWcsNames := ["IDC_AAAAAAAAA-GSC240"], headerletWcsNames := [],
              drizcorr := "PERFORM", sciHdrname := true }] }] = Except.error 1 :=
  ⟨collect_wcs_names_empty_intersection_exits.1 "GRISM" _ _ [] (by decide) (by decide)
     (by decide),
   collect_wcs_names_empty_intersection_exits.2 _ _ [] (by decide) (by decide) (by rfl)⟩

/-- C2 (amended): in `update_wcs_in_visit`, if none of the priority
patterns (`IDC_?????????-GSC240` then `IDC_?????????`) matches the grism
intersection set, then — provided every grism image still has at least
one WCS solution (so none was deleted during collection) and the
distinct grism files are all present on disk — every grism image file is
deleted from disk, the total product's grism list is emptied, an empty
grism-product list is returned, and processing continues (`Except.ok`,
no exit). -/
theorem update_wcs_in_visit_no_pattern_deletes_grism
    (fs : List String) (tdp : TotalProd) (gacc : CollectAcc)
    (hnames : ∀ g ∈ tdp.grism_edp_list, (allWcsNames g).isEmpty = false)
    (hcol : collect_wcs_names "GRISM" fs tdp.grism_edp_list = Except.ok gacc)
    (hnopat : ∀ w ∈ gacc.wcsSet, fnmatchStr "IDC_?????????-GSC240" w = false ∧
              fnmatchStr "IDC_?????????" w = false)
    (hnodup : (tdp.grism_edp_list.map (fun g => g.full_filename)).Nodup)
    (hfs : ∀ g ∈ tdp.grism_edp_list, g.full_filename ∈ fs)
    (hfsnodup : fs.Nodup) :
    update_wcs_in_visit fs tdp =
      Except.ok
        { fs := tdp.grism_edp_list.foldl (fun s g => s.erase g.full_filename) fs,
          events := tdp.grism_edp_list.map
            (fun g => FileEvent.deletedFile g.full_filename),
          grismProducts := [],
          tdp := { tdp with grism_edp_list := [] } } ∧
    ∀ g ∈ tdp.grism_edp_list, g.full_filename ∉
      tdp.grism_edp_list.foldl (fun s g => s.erase g.full_filename) fs := by
  obtain ⟨hfs1, hskip1, hev1⟩ :=
    collect_ok_fields "GRISM" fs tdp.grism_edp_list gacc hnames hcol
  have hpick : pickFrom wcs_preference gacc.wcsSet = none := by
    apply pickFrom_eq_none
    intro p hp w hw
    rcases List.mem_cons.mp hp with rfl | hp'
    · exact (hnopat w hw).1
    · rcases List.mem_cons.mp hp' with rfl | hp''
      · exact (hnopat w hw).2
      · exact absurd hp'' (List.not_mem_nil p)
  refine ⟨?_, foldl_erase_not_mem _ fs hfsnodup⟩
  simp only [update_wcs_in_visit, hcol, except_bind_ok, hpick]
  rw [hfs1, hev1]
  rw [removeFilesAcc_success tdp.grism_edp_list fs [] hfsnodup hnodup hfs]
  simp

/-- C2 counterexample: a grism image with no WCS solutions at all is
deleted from disk by `collect_wcs_names`; the no-pattern deletion loop
then raises `OSError` on the already-missing file, falls through its
`except OSError: pass`, and reaches `sys.exit(1)` — the process exits,
the second grism file is not deleted and nothing is returned,
contradicting the claim's unconditional "the process continues for the
rest of the visit (no process exit)". -/
theorem update_wcs_in_visit_no_pattern_counterexample :
    pickFrom wcs_preference ["FOO"] = none ∧
    update_wcs_in_visit ["g1_flt.fits", "g2_flt.fits", "d1_flt.fits"]
      { grism_edp_list :=
          [{ full_filename := "g1_flt.fits", trl_filename := "g1_trl.txt",
             keywordWcsNames := [], headerletWcsNames := [],
             drizcorr := "PERFORM", sciHdrname := true },
           { full_filename := "g2_flt.fits", trl_filename := "g2_trl.txt",
             keywordWcsNames := ["FOO"], headerletWcsNames := [],
             drizcorr := "PERFORM", sciHdrname := true }],
        edp_list :=
          [{ full_filename := "d1_flt.fits", trl_filename := "d1_trl.txt",
             keywordWcsNames := ["FOO"], headerletWcsNames := [],
             drizcorr := "PERFORM", sciHdrname := true }] } = Except.error 1 := by
  exact ⟨rfl, rfl⟩

/-- C2 witness: two healthy grism images whose only common solution name
`FOO` matches no preferred pattern: both files deleted, grism list
emptied, empty product list, no exit. -/
theorem update_wcs_in_visit_no_pattern_deletes_grism_witness :
    update_wcs_in_visit ["g1_flt.fits", "g2_flt.fits", "d1_flt.fits"]
      { grism_edp_list :=
          [{ full_filename := "g1_flt.fits", trl_filename := "g1_trl.txt",
             keywordWcsNames := ["FOO"], headerletWcsNames := [],
             drizcorr := "PERFORM", sciHdrname := true },
           { full_filename := "g2_flt.fits", trl_filename := "g2_trl.txt",
             keywordWcsNames := ["FOO", "BAR"], headerletWcsNames := [],
             drizcorr := "PERFORM", sciHdrname := true }],
        edp_list :=
          [{ full_filename := "d1_flt.fits", trl_filename := "d1_trl.txt",
             keywordWcsNames := ["FOO"], headerletWcsNames := [],
             drizcorr := "PERFORM", sciHdrname := true }] } =
      Except.ok
        { fs := ["d1_flt.fits"],
          events := [FileEvent.deletedFile "g1_flt.fits",
                     FileEvent.deletedFile "g2_flt.fits"],
          grismProducts := [],
          tdp := { grism_edp_list := [],
                   edp_list :=
                     [{ full_filename := "d1_flt.fits", trl_filename := "d1_trl.txt",
                        keywordWcsNames := ["FOO"], headerletWcsNames := [],
                        drizcorr := "PERFORM", sciHdrname := true }] } } := by
  have h := update_wcs_in_visit_no_pattern_deletes_grism
    ["g1_flt.fits", "g2_flt.fits", "d1_flt.fits"]
    { grism_edp_list :=
        [{ full_filename := "g1_flt.fits", trl_filename := "g1_trl.txt",
           keywordWcsNames := ["FOO"], headerletWcsNames := [],
           drizcorr := "PERFORM", sciHdrname := true },
         { full_filename := "g2_flt.fits", trl_filename := "g2_trl.txt",
           keywordWcsNames := ["FOO", "BAR"], headerletWcsNames := [],
           drizcorr := "PERFORM", sciHdrname := true }],
      edp_list :=
        [{ full_filename := "d1_flt.fits", trl_filename := "d1_trl.txt",
           keywordWcsNames := ["FOO"], headerletWcsNames := [],
           drizcorr := "PERFORM", sciHdrname := true }] }
    { fs := ["g1_flt.fits", "g2_flt.fits", "d1_flt.fits"], existSet := true,
      wcsSet := ["FOO"], skipList := [], events := [] }
    (by decide) (by rfl) (by decide) (by decide) (by decide) (by decide)
  exact h.1.trans (by rfl)

/-- C3 (amended): whenever the grism and direct WCS-solution-name sets
are disjoint, no active/primary WCS is rewritten and the returned
grism-product list is empty; and provided additionally that every image
has at least one solution, no direct image needs the `DRIZCORR == OMIT`
refresh and every direct SCI `HDRNAME` is populated (the pre-collection
pass of lines 1064-1077, which runs before the disjointness check, would
otherwise modify direct images in place), no file is modified at all. -/
theorem update_wcs_in_visit_disjoint_no_rewrite
    (fs : List String) (tdp : TotalProd) (gacc dacc : CollectAcc) (gname : String)
    (hgnames : ∀ g ∈ tdp.grism_edp_list, (allWcsNames g).isEmpty = false)
    (hgcol : collect_wcs_names "GRISM" fs tdp.grism_edp_list = Except.ok gacc)
    (hmatch : pickFrom wcs_preference gacc.wcsSet = some gname)
    (hdnames : ∀ d ∈ tdp.edp_list, (allWcsNames d).isEmpty = false)
    (hdclean : ∀ d ∈ tdp.edp_list, d.drizcorr ≠ "OMIT" ∧ d.sciHdrname = true)
    (hdcol : collect_wcs_names "DIRECT" gacc.fs tdp.edp_list = Except.ok dacc)
    (hdisj : (interS gacc.wcsSet dacc.wcsSet).isEmpty = true) :
    update_wcs_in_visit fs tdp =
      Except.ok { fs := fs, events := [], grismProducts := [], tdp := tdp } := by
  obtain ⟨hgfs, hgskip, hgev⟩ :=
    collect_ok_fields "GRISM" fs tdp.grism_edp_list gacc hgnames hgcol
  obtain ⟨hdfs, hdskip, hdev⟩ :=
    collect_ok_fields "DIRECT" gacc.fs tdp.edp_list dacc hdnames hdcol
  have hdcol' : collect_wcs_names "DIRECT" fs tdp.edp_list = Except.ok dacc :=
    hgfs ▸ hdcol
  simp only [update_wcs_in_visit, hgcol, except_bind_ok, hmatch, hdcol',
    directPrePassAll_nil tdp.edp_list hdclean, hdisj, if_true,
    hgev, hdev, hdfs, hgfs, List.append_nil]

/-- C3 counterexample: the grism and direct solution-name sets are
disjoint, yet the direct image with `DRIZCORR == "OMIT"` is refreshed
in place (event `wcsRefreshed`) by the pre-collection pass that runs
before the disjointness check — a direct image IS modified,
contradicting "no image file is modified ... direct images untouched". -/
theorem update_wcs_in_visit_disjoint_counterexample :
    interS ["IDC_AAAAAAAAA-GSC240"] ["IDC_BBBBBBBBB"] = [] ∧
    update_wcs_in_visit ["g1_flt.fits", "d1_flt.fits"]
      { grism_edp_list :=
          [{ full_filename := "g1_flt.fits", trl_filename := "g1_trl.txt",
             keywordWcsNames := ["IDC_AAAAAAAAA-GSC240"], headerletWcsNames := [],
             drizcorr := "PERFORM", sciHdrname := true }],
        edp_list :=
          [{ full_filename := "d1_flt.fits", trl_filename := "d1_trl.txt",
             keywordWcsNames := ["IDC_BBBBBBBBB"], headerletWcsNames := [],
             drizcorr := "OMIT", sciHdrname := true }] } =
      Except.ok
        { fs := ["g1_flt.fits", "d1_flt.fits"],
          events := [FileEvent.wcsRefreshed "d1_flt.fits"],
          grismProducts := [],
          tdp :=
            { grism_edp_list :=
                [{ full_filename := "g1_flt.fits", trl_filename := "g1_trl.txt",
                   keywordWcsNames := ["IDC_AAAAAAAAA-GSC240"], headerletWcsNames := [],
                   drizcorr := "PERFORM", sciHdrname := true }],
              edp_list :=
                [{ full_filename := "d1_flt.fits", trl_filename := "d1_trl.txt",
                   keywordWcsNames := ["IDC_BBBBBBBBB"], headerletWcsNames := [],
                   drizcorr := "OMIT", sciHdrname := true }] } } := by
  exact ⟨rfl, rfl⟩

/-- C3 witness: disjoint sets with clean direct images: result is `ok`
with unchanged file system, empty event trace, empty product list and
unchanged product. -/
theorem update_wcs_in_visit_disjoint_no_rewrite_witness :
    update_wcs_in_visit ["g1_flt.fits", "d1_flt.fits"]
      { grism_edp_list :=
          [{ full_filename := "g1_flt.fits", trl_filename := "g1_trl.txt",
             keywordWcsNames := ["IDC_AAAAAAAAA-GSC240"], headerletWcsNames := [],
             drizcorr := "PERFORM", sciHdrname := true }],
        edp_list :=
          [{ full_filename := "d1_flt.fits", trl_filename := "d1_trl.txt",
             keywordWcsNames := ["IDC_BBBBBBBBB"], headerletWcsNames := [],
             drizcorr := "COMPLETE", sciHdrname := true }] } =
      Except.ok
        { fs := ["g1_flt.fits", "d1_flt.fits"], events := [], grismProducts := [],
          tdp :=
            { grism_edp_list :=
                [{ full_filename := "g1_flt.fits", trl_filename := "g1_trl.txt",
                   keywordWcsNames := ["IDC_AAAAAAAAA-GSC240"], headerletWcsNames := [],
                   drizcorr := "PERFORM", sciHdrname := true }],
              edp_list :=
                [{ full_filename := "d1_flt.fits", trl_filename := "d1_trl.txt",
                   keywordWcsNames := ["IDC_BBBBBBBBB"], headerletWcsNames := [],
                   drizcorr := "COMPLETE", sciHdrname := true }] } } :=
  update_wcs_in_visit_disjoint_no_rewrite
    ["g1_flt.fits", "d1_flt.fits"]
    { grism_edp_list :=
        [{ full_filename := "g1_flt.fits", trl_filename := "g1_trl.txt",
           keywordWcsNames := ["IDC_AAAAAAAAA-GSC240"], headerletWcsNames := [],
           drizcorr := "PERFORM", sciHdrname := true }],
      edp_list :=
        [{ full_filename := "d1_flt.fits", trl_filename := "d1_trl.txt",
           keywordWcsNames := ["IDC_BBBBBBBBB"], headerletWcsNames := [],
           drizcorr := "COMPLETE", sciHdrname := true }] }
    { fs := ["g1_flt.fits", "d1_flt.fits"], existSet := true,
      wcsSet := ["IDC_AAAAAAAAA-GSC240"], skipList := [], events := [] }
    { fs := ["g1_flt.fits", "d1_flt.fits"], existSet := true,
      wcsSet := ["IDC_BBBBBBBBB"], skipList := [], events := [] }
    "IDC_AAAAAAAAA-GSC240"
    (by decide) (by rfl) (by rfl) (by decide) (by decide) (by rfl) (by rfl)
